import Mathlib

set_option linter.unusedVariables false

namespace FaceRec

/-!
Shallow embedding of `src/backend/app.py` (Flask face-recognition service).

External collaborators are modelled as inputs:
* the detector/embedder (`face_recognition`) is summarised by an `Img` value
  carrying the number of detected faces and the encoding the embedder would
  produce for the single detected face;
* `face_recognition.face_distance` is a function parameter `dist`;
* `DeepFace.verify` (with the query image fixed) is a function parameter
  `verify : String → Option ℚ`, where `none` models a per-candidate failure
  (missing reference image or a raised exception) and `some d` a successful
  comparison with distance `d`;
* file writes are tracked in lists of names whose reference image exists;
  the outcome of `save_image_for_deepface` is a boolean parameter `saveOk`;
* the wall clock (`np.datetime64`) is a string parameter `now`.

Python dicts preserve insertion order, so each JSON store is an association
list `List (String × record)` whose list order is the iteration order; keys
are unique by construction (insertion only happens after a failed lookup).
Distances are modelled as rationals (they are real-valued, never NaN);
`float('inf')` in the running-minimum scan is modelled by starting the scan
state at `none`.
-/

/-- An image as the external collaborators see it: how many faces
`face_recognition.face_locations` reports, and the encoding
`face_recognition.face_encodings` would produce for the single face. -/
structure Img where
  faceCount : Nat
  encoding : List ℚ
deriving DecidableEq, Repr

/-- Record stored in `faces_data.json` (embedding pipeline). -/
structure EmbRecord where
  encoding : List ℚ
  timestamp : String
deriving DecidableEq, Repr

/-- Record stored in `deepface_data.json` (verification pipeline). -/
structure DeepRecord where
  image_path : String
  timestamp : String
deriving DecidableEq, Repr

/-- Persistent server state: the two JSON stores plus, per pipeline, the
names whose reference image file exists on disk. -/
structure ServerState where
  faces_data : List (String × EmbRecord)
  deepface_data : List (String × DeepRecord)
  faces_images : List String
  deepface_images : List String
deriving DecidableEq, Repr

/-- A JSON response together with its HTTP status code.  Fields absent from
a given response body are `none`. -/
structure ApiResponse where
  status : Nat
  success : Bool
  message : String
  recognized : Option Bool
  name : Option String
  confidence : Option ℚ
deriving DecidableEq, Repr

/-- Saving an image file `name.jpg` into a directory: overwrites if present,
creates otherwise. -/
def insertImage (dir : List String) (name : String) : List String :=
  if name ∈ dir then dir else dir ++ [name]

/-- `image_to_face_encoding`: error when zero faces or more than one face is
detected, otherwise the single face encoding. -/
def image_to_face_encoding (img : Img) : Except String (List ℚ) :=
  if img.faceCount = 0 then
    Except.error ("No face detected in the image")
  else if 1 < img.faceCount then
    Except.error ("Multiple faces detected. Please use an image with only one face.")
  else
    Except.ok img.encoding

/-- `data.get('model', 'face_recognition')`: the model field with its
default. -/
def selectedModel (model : Option String) : String :=
  model.getD ("face_recognition")

/-- The `face_recognition` branch of `register_face`: compute the encoding
(400 on detection failure), reject duplicate names, then append the record
and save the reference image. -/
def register_embedding (st : ServerState) (name : String) (img : Img)
    (now : String) : ApiResponse × ServerState :=
  match image_to_face_encoding img with
  | Except.error e => (⟨400, false, e, none, none, none⟩, st)
  | Except.ok enc =>
    if (st.faces_data.lookup name).isSome then
      (⟨400, false, "Name already registered", none, none, none⟩, st)
    else
      (⟨200, true, "Face registered successfully for " ++ name, none, none, none⟩,
       { st with
          faces_data := st.faces_data ++ [(name, ⟨enc, now⟩)],
          faces_images := insertImage st.faces_images name })

/-- The DeepFace branch of `register_face`: reject duplicate names, save the
image (400 if the save fails), then store the metadata record. -/
def register_deepface (st : ServerState) (name : String) (img : Img)
    (saveOk : Bool) (now : String) : ApiResponse × ServerState :=
  if (st.deepface_data.lookup name).isSome then
    (⟨400, false, "Name already registered", none, none, none⟩, st)
  else if saveOk then
    (⟨200, true, "Face registered successfully for " ++ name ++ " using DeepFace",
        none, none, none⟩,
     { st with
        deepface_data :=
          st.deepface_data ++
            [(name, ⟨"registered_faces/deepface/" ++ name ++ ".jpg", now⟩)],
        deepface_images := insertImage st.deepface_images name })
  else
    (⟨400, false, "Error saving image", none, none, none⟩, st)

/-- `POST /register_face`.  `name`, `image_b64` and `model` are the JSON
fields (absent = `none`; Python treats the empty string as missing too);
`decoded` is the result of `base64_to_image` on the image field. -/
def register_face (st : ServerState) (name image_b64 model : Option String)
    (decoded : Option Img) (saveOk : Bool) (now : String) :
    ApiResponse × ServerState :=
  if name.getD ("") = "" ∨ image_b64.getD ("") = "" then
    (⟨400, false, "Name and image are required", none, none, none⟩, st)
  else
    match decoded with
    | none => (⟨400, false, "Invalid image format", none, none, none⟩, st)
    | some img =>
      if selectedModel model = "deepface" then
        register_deepface st (name.getD ("")) img saveOk now
      else
        register_embedding st (name.getD ("")) img now

/-- The embedding-pipeline running-minimum loop over precomputed
`(name, distance)` pairs.  `best = none` models the initial state
`best_match = None, best_distance = float('inf')` (every finite distance is
strictly below infinity); the comparison is strict `<`, so ties keep the
first-seen minimum. -/
def scanAux (best : Option (String × ℚ)) :
    List (String × ℚ) → Option (String × ℚ)
  | [] => best
  | (n, d) :: rest =>
    match best with
    | none => scanAux (some (n, d)) rest
    | some (bn, bd) =>
      if d < bd then scanAux (some (n, d)) rest
      else scanAux (some (bn, bd)) rest

/-- The `face_recognition` branch of `recognize_face`: encode the query
(400 on detection failure), 404 on an empty store, otherwise scan all
stored encodings and accept iff the best distance is at most 0.6, with
confidence `1 - distance`. -/
def recognize_embedding (st : ServerState) (img : Img)
    (dist : List ℚ → List ℚ → ℚ) : ApiResponse :=
  match image_to_face_encoding img with
  | Except.error e => ⟨400, false, e, none, none, none⟩
  | Except.ok enc =>
    if st.faces_data.isEmpty then
      ⟨404, false, "No registered faces found", some false, none, none⟩
    else
      match scanAux none
          (st.faces_data.map (fun p => (p.1, dist p.2.encoding enc))) with
      | none => ⟨200, true, "Face not recognized", some false, none, none⟩
      | some (bn, bd) =>
        if bd ≤ mkRat 6 10 then
          ⟨200, true, "Face recognized as " ++ bn, some true, some bn,
            some (1 - bd)⟩
        else
          ⟨200, true, "Face not recognized", some false, none, none⟩

/-- The DeepFace running-minimum loop over registered names: candidates
whose verification fails (`verify n = none`) are skipped and do not abort
the scan; successful distances feed the same strict-`<` running minimum. -/
def deepScanAux (verify : String → Option ℚ) (best : Option (String × ℚ)) :
    List String → Option (String × ℚ)
  | [] => best
  | n :: rest =>
    match verify n with
    | none => deepScanAux verify best rest
    | some d =>
      match best with
      | none => deepScanAux verify (some (n, d)) rest
      | some (bn, bd) =>
        if d < bd then deepScanAux verify (some (n, d)) rest
        else deepScanAux verify (some (bn, bd)) rest

/-- Clamp to `[0, 1]`, as in `max(0, min(1, confidence))`. -/
def clamp01 (q : ℚ) : ℚ := max 0 (min 1 q)

/-- The DeepFace branch of `recognize_face`: 404 on an empty store,
otherwise one verifier call per registered name; accept iff
`best_match and best_distance <= 0.4` (Python truthiness: `best_match`
must be neither `None` nor the empty string), with confidence
`1 - distance` clamped to `[0, 1]`. -/
def recognize_deepface (st : ServerState) (verify : String → Option ℚ) :
    ApiResponse :=
  if st.deepface_data.isEmpty then
    ⟨404, false, "No registered faces found", some false, none, none⟩
  else
    match deepScanAux verify none (st.deepface_data.map Prod.fst) with
    | none => ⟨200, true, "Face not recognized", some false, none, none⟩
    | some (bn, bd) =>
      if bn ≠ "" ∧ bd ≤ mkRat 4 10 then
        ⟨200, true, "Face recognized as " ++ bn, some true, some bn,
          some (clamp01 (1 - bd))⟩
      else
        ⟨200, true, "Face not recognized", some false, none, none⟩

/-- `POST /recognize_face`. -/
def recognize_face (st : ServerState) (image_b64 model : Option String)
    (decoded : Option Img) (dist : List ℚ → List ℚ → ℚ)
    (verify : String → Option ℚ) : ApiResponse :=
  if image_b64.getD ("") = "" then
    ⟨400, false, "Image is required", none, none, none⟩
  else
    match decoded with
    | none => ⟨400, false, "Invalid image format", none, none, none⟩
    | some img =>
      if selectedModel model = "deepface" then
        recognize_deepface st verify
      else
        recognize_embedding st img dist

/-- Response of `GET /get_registered_faces`. -/
structure ListResponse where
  success : Bool
  faces : List String
  count : Nat
deriving DecidableEq, Repr

/-- `GET /get_registered_faces`: `sorted(list(set(keys1 + keys2)))` with
`count` the size of the set.  `dedup` keeps one occurrence per name; the
arbitrary iteration order of the Python set is immaterial because the
output list is sorted and the count only depends on the set's size. -/
def get_registered_faces (st : ServerState) : ListResponse :=
  let all_names :=
    (st.faces_data.map Prod.fst ++ st.deepface_data.map Prod.fst).dedup
  ⟨true, all_names.insertionSort (fun a b => a ≤ b), all_names.length⟩

/-- `DELETE /delete_face/<name>`: remove the name from each store that has
it (together with its image file), 404 only when neither store has it. -/
def delete_face (st : ServerState) (name : String) :
    ApiResponse × ServerState :=
  let inFaces := (st.faces_data.lookup name).isSome
  let inDeep := (st.deepface_data.lookup name).isSome
  let st1 :=
    if inFaces then
      { st with
          faces_data := st.faces_data.filter (fun p => p.1 != name),
          faces_images := st.faces_images.erase name }
    else st
  let st2 :=
    if inDeep then
      { st1 with
          deepface_data := st1.deepface_data.filter (fun p => p.1 != name),
          deepface_images := st1.deepface_images.erase name }
    else st1
  if inFaces ∨ inDeep then
    (⟨200, true, "Face " ++ name ++ " deleted successfully", none, none, none⟩, st2)
  else
    (⟨404, false, "Face not found", none, none, none⟩, st)

/-!
Helper lemmas about the running-minimum scans.
-/

/-- Characterisation of the running-minimum loop started from an explicit
best pair: either nothing beats `bd` and the accumulator survives, or the
result is the first entry attaining the overall minimum, which is strictly
below `bd`, strictly below every earlier entry and at most every later
entry. -/
theorem scanAux_spec (entries : List (String × ℚ)) (bn : String) (bd : ℚ) :
    (scanAux (some (bn, bd)) entries = some (bn, bd) ∧
      ∀ q ∈ entries, bd ≤ q.2) ∨
    (∃ l₁ p l₂, entries = l₁ ++ p :: l₂ ∧
      scanAux (some (bn, bd)) entries = some p ∧ p.2 < bd ∧
      (∀ q ∈ l₁, p.2 < q.2) ∧ (∀ q ∈ l₂, p.2 ≤ q.2)) := by
  induction entries generalizing bn bd with
  | nil =>
    left
    exact ⟨rfl, by simp⟩
  | cons e rest ih =>
    obtain ⟨n, d⟩ := e
    by_cases h : d < bd
    · have hs : scanAux (some (bn, bd)) ((n, d) :: rest) =
          scanAux (some (n, d)) rest := by
        simp [scanAux, h]
      rcases ih n d with ⟨h1, h2⟩ | ⟨l₁, p, l₂, hsplit, hres, hlt, hb, ha⟩
      · right
        refine ⟨[], (n, d), rest, by simp, ?_, h, by simp, h2⟩
        rw [hs]; exact h1
      · right
        refine ⟨(n, d) :: l₁, p, l₂, by rw [hsplit]; rfl, ?_,
          lt_trans hlt h, ?_, ha⟩
        · rw [hs]; exact hres
        · intro q hq
          rcases List.mem_cons.mp hq with rfl | hq'
          · exact hlt
          · exact hb q hq'
    · have hs : scanAux (some (bn, bd)) ((n, d) :: rest) =
          scanAux (some (bn, bd)) rest := by
        simp [scanAux, h]
      rcases ih bn bd with ⟨h1, h2⟩ | ⟨l₁, p, l₂, hsplit, hres, hlt, hb, ha⟩
      · left
        refine ⟨by rw [hs]; exact h1, ?_⟩
        intro q hq
        rcases List.mem_cons.mp hq with rfl | hq'
        · exact le_of_not_lt h
        · exact h2 q hq'
      · right
        refine ⟨(n, d) :: l₁, p, l₂, by rw [hsplit]; rfl, ?_, hlt, ?_, ha⟩
        · rw [hs]; exact hres
        · intro q hq
          rcases List.mem_cons.mp hq with rfl | hq'
          · exact lt_of_lt_of_le hlt (le_of_not_lt h)
          · exact hb q hq'

/-- The first iteration always replaces the infinite initial distance. -/
theorem scanAux_none_cons (n : String) (d : ℚ) (rest : List (String × ℚ)) :
    scanAux none ((n, d) :: rest) = scanAux (some (n, d)) rest := rfl

/-- On a non-empty list the scan returns the first-seen minimum: the result
splits the list as `l₁ ++ p :: l₂` with `p` strictly below every earlier
entry and at most every later entry. -/
theorem scan_first_min (entries : List (String × ℚ)) (h : entries ≠ []) :
    ∃ l₁ p l₂, entries = l₁ ++ p :: l₂ ∧ scanAux none entries = some p ∧
      (∀ q ∈ l₁, p.2 < q.2) ∧ (∀ q ∈ l₂, p.2 ≤ q.2) := by
  match entries, h with
  | (n, d) :: rest, _ =>
    rcases scanAux_spec rest n d with ⟨h1, h2⟩ | ⟨l₁, p, l₂, hsplit, hres, hlt, hb, ha⟩
    · refine ⟨[], (n, d), rest, by simp, ?_, by simp, h2⟩
      rw [scanAux_none_cons]; exact h1
    · refine ⟨(n, d) :: l₁, p, l₂, by rw [hsplit]; rfl, ?_, ?_, ha⟩
      · rw [scanAux_none_cons]; exact hres
      · intro q hq
        rcases List.mem_cons.mp hq with rfl | hq'
        · exact hlt
        · exact hb q hq'

/-- The scan result is a member of the list and attains the minimum
distance. -/
theorem scanAux_none_min (entries : List (String × ℚ)) (p : String × ℚ)
    (h : scanAux none entries = some p) :
    p ∈ entries ∧ ∀ q ∈ entries, p.2 ≤ q.2 := by
  have hne : entries ≠ [] := by
    intro he
    rw [he] at h
    exact Option.noConfusion h
  obtain ⟨l₁, p', l₂, hsplit, hres, hb, ha⟩ := scan_first_min entries hne
  rw [h] at hres
  obtain rfl : p = p' := Option.some.inj hres
  constructor
  · rw [hsplit]
    exact List.mem_append.mpr (Or.inr (List.mem_cons_self _ _))
  · intro q hq
    rw [hsplit] at hq
    rcases List.mem_append.mp hq with hq1 | hq2
    · exact le_of_lt (hb q hq1)
    · rcases List.mem_cons.mp hq2 with rfl | hq3
      · exact le_refl _
      · exact ha q hq3

/-- The scan returns `none` exactly on the empty list. -/
theorem scanAux_none_eq_none (entries : List (String × ℚ)) :
    scanAux none entries = none ↔ entries = [] := by
  constructor
  · intro h
    by_contra hne
    obtain ⟨l₁, p, l₂, _, hres, _, _⟩ := scan_first_min entries hne
    rw [h] at hres
    exact Option.noConfusion hres
  · intro h
    rw [h]
    rfl

/-- The DeepFace loop equals the plain running-minimum scan over the
successful comparisons, in scan order: failed verifications are exactly
dropped. -/
theorem deepScanAux_eq_scanAux (verify : String → Option ℚ)
    (best : Option (String × ℚ)) (names : List String) :
    deepScanAux verify best names =
      scanAux best
        (names.filterMap (fun n => (verify n).map (fun d => (n, d)))) := by
  induction names generalizing best with
  | nil => rfl
  | cons n rest ih =>
    cases hv : verify n with
    | none =>
      simp only [deepScanAux, hv, List.filterMap_cons, Option.map_none']
      exact ih best
    | some d =>
      cases best with
      | none =>
        simp only [deepScanAux, hv, List.filterMap_cons, Option.map_some',
          scanAux]
        exact ih (some (n, d))
      | some p =>
        obtain ⟨bn, bd⟩ := p
        by_cases h : d < bd <;>
          simp only [deepScanAux, hv, List.filterMap_cons, Option.map_some',
            scanAux, h, if_true, if_false] <;>
          first
            | exact ih (some (n, d))
            | exact ih (some (bn, bd))

/-!
Concrete inputs used by the claim theorems and witnesses.
-/

/-- Stored vector of identity A in the worked example. -/
def encA : List ℚ := [0]

/-- Stored vector of identity B in the worked example. -/
def encB : List ℚ := [1]

/-- A distance function placing A at distance 0.3 and everything else at
distance 0.5 from the query. -/
def exampleDist (stored query : List ℚ) : ℚ :=
  if stored = encA then mkRat 3 10 else mkRat 5 10

/-- Store holding exactly the identities A and B of the worked example. -/
def exampleStoreAB : ServerState :=
  ⟨[("A", ⟨encA, "t0"⟩), ("B", ⟨encB, "t0"⟩)], [], ["A", "B"], []⟩

/-- A query image with exactly one detected face. -/
def exampleQuery : Img := ⟨1, [2]⟩

/-- A store holding a single embedding-pipeline identity. -/
def exampleStoreOne : ServerState := ⟨[("A", ⟨encA, "t0"⟩)], [], ["A"], []⟩

/-- A distance function placing everything at distance 0.7. -/
def exampleDistFar (stored query : List ℚ) : ℚ := mkRat 7 10

/-!
Claim theorems.
-/

/-- Claim C1: for every non-empty embedding store and query, the
nearest-embedding matcher returns the stored name whose vector minimises
the distance, tracked by a linear scan with a strict less-than
running-minimum update so that ties keep the first-seen minimum in store
iteration order (the scan result splits the entry list as `l₁ ++ p :: l₂`
with `p` strictly below every earlier entry and at most every later one);
in particular, with stored vectors A at distance 0.3 and B at distance 0.5
from the query, the result is A with confidence `1 - 0.3 = 0.7` under
threshold 0.6. -/
theorem nearest_match_first_seen_min :
    (∀ (entries : List (String × ℚ)), entries ≠ [] →
      ∃ l₁ p l₂, entries = l₁ ++ p :: l₂ ∧ scanAux none entries = some p ∧
        (∀ q ∈ l₁, p.2 < q.2) ∧ (∀ q ∈ l₂, p.2 ≤ q.2)) ∧
    recognize_embedding exampleStoreAB exampleQuery exampleDist =
      ⟨200, true, "Face recognized as A", some true, some ("A"),
        some (mkRat 7 10)⟩ := by
  constructor
  · exact scan_first_min
  · norm_num [recognize_embedding, image_to_face_encoding, exampleStoreAB,
      exampleQuery, exampleDist, encA, encB, scanAux, Rat.mkRat_eq_div]
    rfl

theorem nearest_match_first_seen_min_witness :
    ∃ l₁ p l₂,
      ([("A", mkRat 3 10), ("B", mkRat 5 10)] : List (String × ℚ)) =
        l₁ ++ p :: l₂ ∧
      scanAux none [("A", mkRat 3 10), ("B", mkRat 5 10)] = some p ∧
      (∀ q ∈ l₁, p.2 < q.2) ∧ (∀ q ∈ l₂, p.2 ≤ q.2) :=
  nearest_match_first_seen_min.1 [("A", mkRat 3 10), ("B", mkRat 5 10)] (by decide)

/-- Claim C2: for every non-empty embedding store, if the minimum distance
from the query to every stored vector exceeds the threshold 0.6, recognize
returns `recognized = false` with `success = true` and no name field, even
though a best-match name was tracked internally during the scan (the scan
returns `some` pair). -/
theorem above_threshold_not_recognized (st : ServerState) (img : Img)
    (dist : List ℚ → List ℚ → ℚ) (enc : List ℚ)
    (henc : image_to_face_encoding img = Except.ok enc)
    (hne : st.faces_data ≠ [])
    (hfar : ∀ p ∈ st.faces_data, mkRat 6 10 < dist p.2.encoding enc) :
    (∃ n d, scanAux none
        (st.faces_data.map (fun p => (p.1, dist p.2.encoding enc))) =
        some (n, d)) ∧
    recognize_embedding st img dist =
      ⟨200, true, "Face not recognized", some false, none, none⟩ := by
  have hene : st.faces_data.map (fun p => (p.1, dist p.2.encoding enc)) ≠ [] := by
    intro hmap
    exact hne (List.map_eq_nil_iff.mp hmap)
  obtain ⟨l₁, p, l₂, hsplit, hres, hb, ha⟩ := scan_first_min _ hene
  obtain ⟨n0, d0⟩ := p
  have hmem : (n0, d0) ∈
      st.faces_data.map (fun p => (p.1, dist p.2.encoding enc)) := by
    rw [hsplit]
    exact List.mem_append_right _ (List.mem_cons_self _ _)
  obtain ⟨r, hr, hrp⟩ := List.mem_map.mp hmem
  have hd0 : mkRat 6 10 < d0 := by
    have h6 := hfar r hr
    injection hrp with h1 h2
    rw [h2] at h6
    exact h6
  have hempty : st.faces_data.isEmpty = false := by
    cases hfd : st.faces_data with
    | nil => exact absurd hfd hne
    | cons a l => rfl
  refine ⟨⟨n0, d0, hres⟩, ?_⟩
  simp only [recognize_embedding, henc, hempty, Bool.false_eq_true,
    if_false, hres]
  rw [if_neg (not_le.mpr hd0)]

theorem above_threshold_not_recognized_witness :
    (∃ n d, scanAux none
        (exampleStoreOne.faces_data.map
          (fun p => (p.1, exampleDistFar p.2.encoding [2]))) = some (n, d)) ∧
    recognize_embedding exampleStoreOne exampleQuery exampleDistFar =
      ⟨200, true, "Face not recognized", some false, none, none⟩ :=
  above_threshold_not_recognized exampleStoreOne exampleQuery exampleDistFar
    [2] rfl (by decide) (by decide)

/-- Claim C3: a recognize request against an empty store of the selected
pipeline returns a 404 "no registered faces" outcome without performing any
distance comparison against stored entries: the response is the same for
every distance function and every verifier. -/
theorem empty_store_fail_fast (st : ServerState) (b64 : String)
    (model : Option String) (img : Img) (enc : List ℚ)
    (hb : b64 ≠ "")
    (henc : image_to_face_encoding img = Except.ok enc) :
    (selectedModel model ≠ "deepface" → st.faces_data = [] →
      ∀ dist verify,
        recognize_face st (some b64) model (some img) dist verify =
          ⟨404, false, "No registered faces found", some false, none, none⟩) ∧
    (selectedModel model = "deepface" → st.deepface_data = [] →
      ∀ dist verify,
        recognize_face st (some b64) model (some img) dist verify =
          ⟨404, false, "No registered faces found", some false, none, none⟩) := by
  constructor
  · intro hm hempty dist verify
    simp [recognize_face, hb, hm, recognize_embedding, henc, hempty]
  · intro hm hempty dist verify
    simp [recognize_face, hb, hm, recognize_deepface, hempty]

theorem empty_store_fail_fast_witness :
    recognize_face ⟨[], [], [], []⟩ (some ("img")) none (some ⟨1, [0]⟩)
      (fun _ _ => 0) (fun _ => none) =
      ⟨404, false, "No registered faces found", some false, none, none⟩ :=
  (empty_store_fail_fast ⟨[], [], [], []⟩ ("img") none ⟨1, [0]⟩ [0]
      (by decide) rfl).1 (by decide) rfl (fun _ _ => 0) (fun _ => none)

/-- A store holding the name A in both pipelines. -/
def exampleStoreBoth : ServerState :=
  ⟨[("A", ⟨encA, "t0"⟩)], [("A", ⟨"registered_faces/deepface/A.jpg", "t0"⟩)],
    ["A"], ["A"]⟩

/-- Claim C4: for either store, a register request for a name already
present in that store is rejected with a 400 duplicate-name error and the
whole server state — in particular the original record for that name — is
left unchanged. -/
theorem duplicate_register_rejected (st : ServerState) (name b64 : String)
    (model : Option String) (img : Img) (enc : List ℚ) (saveOk : Bool)
    (now : String) (hn : name ≠ "") (hb : b64 ≠ "") :
    (selectedModel model ≠ "deepface" →
      image_to_face_encoding img = Except.ok enc →
      (st.faces_data.lookup name).isSome →
      register_face st (some name) (some b64) model (some img) saveOk now =
        (⟨400, false, "Name already registered", none, none, none⟩, st)) ∧
    (selectedModel model = "deepface" →
      (st.deepface_data.lookup name).isSome →
      register_face st (some name) (some b64) model (some img) saveOk now =
        (⟨400, false, "Name already registered", none, none, none⟩, st)) := by
  constructor
  · intro hm henc hdup
    simp [register_face, hn, hb, hm, register_embedding, henc, hdup]
  · intro hm hdup
    simp [register_face, hn, hb, hm, register_deepface, hdup]

theorem duplicate_register_rejected_witness :
    register_face exampleStoreBoth (some ("A")) (some ("img")) none
      (some exampleQuery) true ("t1") =
      (⟨400, false, "Name already registered", none, none, none⟩,
        exampleStoreBoth) ∧
    register_face exampleStoreBoth (some ("A")) (some ("img"))
      (some ("deepface")) (some exampleQuery) true ("t1") =
      (⟨400, false, "Name already registered", none, none, none⟩,
        exampleStoreBoth) :=
  ⟨(duplicate_register_rejected exampleStoreBoth ("A") ("img") none exampleQuery
      [2] true ("t1") (by decide) (by decide)).1 (by decide) rfl (by decide),
   (duplicate_register_rejected exampleStoreBoth ("A") ("img") (some ("deepface"))
      exampleQuery [2] true ("t1") (by decide) (by decide)).2 (by decide)
      (by decide)⟩

/-- Claim C5: when the detector finds zero faces or more than one face, the
embedding pipeline's register and recognize operations reject with a 400
response carrying the corresponding message and persist nothing: the server
state — embedding store and reference images included — is returned
unchanged by register. -/
theorem detection_failure_rejects (st : ServerState) (name : String)
    (img : Img) (dist : List ℚ → List ℚ → ℚ) (now : String)
    (hbad : img.faceCount = 0 ∨ 1 < img.faceCount) :
    ∃ msg, image_to_face_encoding img = Except.error msg ∧
      (img.faceCount = 0 → msg = "No face detected in the image") ∧
      (img.faceCount ≠ 0 →
        msg = "Multiple faces detected. Please use an image with only one face.") ∧
      register_embedding st name img now =
        (⟨400, false, msg, none, none, none⟩, st) ∧
      recognize_embedding st img dist = ⟨400, false, msg, none, none, none⟩ := by
  rcases hbad with h0 | h1
  · refine ⟨"No face detected in the image", ?_, fun _ => rfl,
      fun hc => absurd h0 hc, ?_, ?_⟩
    · simp [image_to_face_encoding, h0]
    · simp [register_embedding, image_to_face_encoding, h0]
    · simp [recognize_embedding, image_to_face_encoding, h0]
  · have h0 : img.faceCount ≠ 0 := by omega
    refine ⟨"Multiple faces detected. Please use an image with only one face.",
      ?_, fun hc => absurd hc h0, fun _ => rfl, ?_, ?_⟩
    · simp [image_to_face_encoding, h0, h1]
    · simp [register_embedding, image_to_face_encoding, h0, h1]
    · simp [recognize_embedding, image_to_face_encoding, h0, h1]

theorem detection_failure_rejects_witness :
    ∃ msg, image_to_face_encoding ⟨2, [2]⟩ = Except.error msg ∧
      ((2 : Nat) = 0 → msg = "No face detected in the image") ∧
      ((2 : Nat) ≠ 0 →
        msg = "Multiple faces detected. Please use an image with only one face.") ∧
      register_embedding exampleStoreOne ("B") ⟨2, [2]⟩ ("t1") =
        (⟨400, false, msg, none, none, none⟩, exampleStoreOne) ∧
      recognize_embedding exampleStoreOne ⟨2, [2]⟩ exampleDist =
        ⟨400, false, msg, none, none, none⟩ :=
  detection_failure_rejects exampleStoreOne ("B") ⟨2, [2]⟩ exampleDist ("t1")
    (by decide)

/-- A verification store with three names. -/
def exampleDeepStore : ServerState :=
  ⟨[], [("A", ⟨"pA", "t0"⟩), ("B", ⟨"pB", "t0"⟩), ("C", ⟨"pC", "t0"⟩)],
    [], []⟩

/-- A verifier that fails on A and succeeds on B (distance 0.3) and C
(distance 0.5). -/
def exampleVerify (n : String) : Option ℚ :=
  if n = "A" then none
  else if n = "B" then some (mkRat 3 10)
  else some (mkRat 5 10)

/-- Claim C6: on a non-empty verification store the scan invokes the
verifier once per registered name, in store order; failed verifier calls
are skipped without aborting the scan (the loop equals the plain
running-minimum scan over the comparisons that succeeded), the tracked best
pair attains the minimum distance among successful comparisons, a match is
reported only if such a best match exists with distance at most 0.4, and a
reported match carries confidence `1 - distance` clamped to `[0, 1]`. -/
theorem verification_recognize_spec (st : ServerState)
    (verify : String → Option ℚ) (hne : st.deepface_data ≠ []) :
    deepScanAux verify none (st.deepface_data.map Prod.fst) =
      scanAux none ((st.deepface_data.map Prod.fst).filterMap
        (fun m => (verify m).map (fun e => (m, e)))) ∧
    (∀ n d,
      deepScanAux verify none (st.deepface_data.map Prod.fst) = some (n, d) →
      (n, d) ∈ (st.deepface_data.map Prod.fst).filterMap
          (fun m => (verify m).map (fun e => (m, e))) ∧
      ∀ q ∈ (st.deepface_data.map Prod.fst).filterMap
          (fun m => (verify m).map (fun e => (m, e))), d ≤ q.2) ∧
    (∀ n c, recognize_deepface st verify =
        ⟨200, true, "Face recognized as " ++ n, some true, some n, some c⟩ →
      ∃ d, deepScanAux verify none (st.deepface_data.map Prod.fst) =
          some (n, d) ∧
        d ≤ mkRat 4 10 ∧ c = clamp01 (1 - d)) ∧
    (∀ n d,
      deepScanAux verify none (st.deepface_data.map Prod.fst) = some (n, d) →
      n ≠ "" → d ≤ mkRat 4 10 →
      recognize_deepface st verify =
        ⟨200, true, "Face recognized as " ++ n, some true, some n,
          some (clamp01 (1 - d))⟩) := by
  have hempty : st.deepface_data.isEmpty = false := by
    cases hd : st.deepface_data with
    | nil => exact absurd hd hne
    | cons a l => rfl
  refine ⟨deepScanAux_eq_scanAux verify none _, ?_, ?_, ?_⟩
  · intro n d hscan
    exact scanAux_none_min _ (n, d)
      (by rw [← deepScanAux_eq_scanAux]; exact hscan)
  · intro n c h
    rcases hscan : deepScanAux verify none (st.deepface_data.map Prod.fst)
      with _ | ⟨bn, bd⟩
    · simp only [recognize_deepface, hempty, Bool.false_eq_true, if_false,
        hscan, ApiResponse.mk.injEq] at h
      exact absurd h.2.2.2.1 (by simp)
    · simp only [recognize_deepface, hempty, Bool.false_eq_true, if_false,
        hscan] at h
      by_cases hc : bn ≠ "" ∧ bd ≤ mkRat 4 10
      · rw [if_pos hc] at h
        simp only [ApiResponse.mk.injEq, Option.some.injEq] at h
        obtain ⟨-, -, -, -, hbn, hcc⟩ := h
        exact ⟨bd, by rw [hbn], hc.2, hcc.symm⟩
      · rw [if_neg hc] at h
        simp only [ApiResponse.mk.injEq, Option.some.injEq] at h
        exact absurd h.2.2.2.1 (by simp)
  · intro n d hscan hn04 h04
    simp only [recognize_deepface, hempty, Bool.false_eq_true, if_false,
      hscan]
    rw [if_pos ⟨hn04, h04⟩]

theorem verification_recognize_spec_witness :
    recognize_deepface exampleDeepStore exampleVerify =
      ⟨200, true, "Face recognized as " ++ "B", some true, some ("B"),
        some (clamp01 (1 - mkRat 3 10))⟩ :=
  (verification_recognize_spec exampleDeepStore exampleVerify
      (by decide)).2.2.2 ("B") (mkRat 3 10) (by decide) (by decide) (by decide)

/-- Claim C7: a register request on the verification pipeline with a
non-duplicate name and a decodable image persists the image and succeeds;
no face-detection check is performed on the image (the outcome is the same
for every decoded image, in particular for images with zero or several
faces), unlike the embedding pipeline, which rejects any image whose
detected face count differs from one. -/
theorem verification_register_no_detection (st : ServerState)
    (name b64 : String) (model : Option String) (img : Img) (now : String)
    (hn : name ≠ "") (hb : b64 ≠ "")
    (hm : selectedModel model = "deepface")
    (hnew : st.deepface_data.lookup name = none) :
    register_face st (some name) (some b64) model (some img) true now =
      (⟨200, true,
          "Face registered successfully for " ++ name ++ " using DeepFace",
          none, none, none⟩,
        { st with
            deepface_data := st.deepface_data ++
              [(name, ⟨"registered_faces/deepface/" ++ name ++ ".jpg", now⟩)],
            deepface_images := insertImage st.deepface_images name }) ∧
    (∀ img2 : Img,
      register_face st (some name) (some b64) model (some img2) true now =
        register_face st (some name) (some b64) model (some img) true now) ∧
    (∀ model2, selectedModel model2 ≠ "deepface" → img.faceCount ≠ 1 →
      (register_face st (some name) (some b64) model2 (some img) true now).1.success
          = false ∧
      (register_face st (some name) (some b64) model2 (some img) true now).2
          = st) := by
  have hreg : ∀ img2 : Img,
      register_face st (some name) (some b64) model (some img2) true now =
        (⟨200, true,
            "Face registered successfully for " ++ name ++ " using DeepFace",
            none, none, none⟩,
          { st with
              deepface_data := st.deepface_data ++
                [(name,
                  ⟨"registered_faces/deepface/" ++ name ++ ".jpg", now⟩)],
              deepface_images := insertImage st.deepface_images name }) := by
    intro img2
    simp [register_face, hn, hb, hm, register_deepface, hnew]
  refine ⟨hreg img, fun img2 => by rw [hreg img2, hreg img], ?_⟩
  intro model2 hm2 hcount
  have hbad : image_to_face_encoding img =
      Except.error (if img.faceCount = 0 then "No face detected in the image"
        else "Multiple faces detected. Please use an image with only one face.") := by
    by_cases h0 : img.faceCount = 0
    · simp [image_to_face_encoding, h0]
    · have h1 : 1 < img.faceCount := by omega
      simp [image_to_face_encoding, h0, h1]
  constructor
  · simp [register_face, hn, hb, hm2, register_embedding, hbad]
  · simp [register_face, hn, hb, hm2, register_embedding, hbad]

theorem verification_register_no_detection_witness :
    register_face exampleStoreOne (some ("B")) (some ("img"))
      (some ("deepface")) (some ⟨0, []⟩) true ("t1") =
      (⟨200, true,
          "Face registered successfully for " ++ "B" ++ " using DeepFace",
          none, none, none⟩,
        { exampleStoreOne with
            deepface_data := exampleStoreOne.deepface_data ++
              [("B", ⟨"registered_faces/deepface/" ++ "B" ++ ".jpg", "t1"⟩)],
            deepface_images :=
              insertImage exampleStoreOne.deepface_images ("B") }) :=
  (verification_register_no_detection exampleStoreOne ("B") ("img")
      (some ("deepface")) ⟨0, []⟩ ("t1") (by decide) (by decide) rfl rfl).1

/-- Removing a key that is absent from an association list leaves it
unchanged. -/
theorem filter_ne_of_lookup_none {β : Type} (l : List (String × β))
    (name : String) (h : l.lookup name = none) :
    l.filter (fun p => p.1 != name) = l := by
  induction l with
  | nil => rfl
  | cons e tl ih =>
    obtain ⟨k, v⟩ := e
    by_cases hk : name = k
    · subst hk
      simp [List.lookup] at h
    · have hbeq : (name == k) = false := beq_eq_false_iff_ne.mpr hk
      have htl : tl.lookup name = none := by
        simpa [List.lookup, hbeq] using h
      have hkb : (k != name) = true := by
        simp only [bne_iff_ne, ne_eq]
        exact fun hh => hk hh.symm
      simp [List.filter, hkb, ih htl]

/-- After removing a key from an association list, looking it up fails. -/
theorem lookup_filter_self {β : Type} (l : List (String × β))
    (name : String) :
    (l.filter (fun p => p.1 != name)).lookup name = none := by
  induction l with
  | nil => rfl
  | cons e tl ih =>
    obtain ⟨k, v⟩ := e
    by_cases hk : k = name
    · have hkb : (k != name) = false := by
        simp [bne, hk]
      simp [List.filter, hkb, ih]
    · have hkb : (k != name) = true := by
        simpa [bne_iff_ne] using hk
      have hbeq : (name == k) = false :=
        beq_eq_false_iff_ne.mpr (fun hh => hk hh.symm)
      simp [List.filter, hkb, List.lookup, hbeq, ih]

/-- Claim C8: the list operation returns exactly the union of the names in
the two stores, deduplicated and sorted ascending, with a count equal to
the number of distinct names; a name present in both stores appears once. -/
theorem list_faces_sorted_union (st : ServerState) :
    (get_registered_faces st).success = true ∧
    List.Sorted (fun a b => a ≤ b) (get_registered_faces st).faces ∧
    (get_registered_faces st).faces.Nodup ∧
    (∀ n : String, n ∈ (get_registered_faces st).faces ↔
      (n ∈ st.faces_data.map Prod.fst ∨ n ∈ st.deepface_data.map Prod.fst)) ∧
    (get_registered_faces st).count =
      ((st.faces_data.map Prod.fst).toFinset ∪
        (st.deepface_data.map Prod.fst).toFinset).card := by
  have hperm : List.Perm
      (((st.faces_data.map Prod.fst ++
          st.deepface_data.map Prod.fst).dedup).insertionSort
          (fun a b => a ≤ b))
      ((st.faces_data.map Prod.fst ++ st.deepface_data.map Prod.fst).dedup) :=
    List.perm_insertionSort _ _
  refine ⟨rfl, ?_, ?_, ?_, ?_⟩
  · exact List.sorted_insertionSort _ _
  · exact hperm.symm.nodup (List.nodup_dedup _)
  · intro n
    have hf : (get_registered_faces st).faces =
        ((st.faces_data.map Prod.fst ++
          st.deepface_data.map Prod.fst).dedup).insertionSort
          (fun a b => a ≤ b) := rfl
    rw [hf, hperm.mem_iff, List.mem_dedup, List.mem_append]
  · have hc : (get_registered_faces st).count =
        ((st.faces_data.map Prod.fst ++
          st.deepface_data.map Prod.fst).dedup).length := rfl
    rw [hc, ← List.toFinset_append, List.card_toFinset]

/-- Claim C9: delete removes the name independently from each store in
which it is present (leaving all other entries intact), returns 200 when it
was removed from at least one store, 404 exactly when the name is absent
from both stores; hence deleting the same name twice yields success then
not-found. -/
theorem delete_face_idempotent (st : ServerState) (name : String) :
    (delete_face st name).2.faces_data =
      st.faces_data.filter (fun p => p.1 != name) ∧
    (delete_face st name).2.deepface_data =
      st.deepface_data.filter (fun p => p.1 != name) ∧
    ((delete_face st name).1.status = 404 ↔
      st.faces_data.lookup name = none ∧
        st.deepface_data.lookup name = none) ∧
    ((st.faces_data.lookup name).isSome ∨
        (st.deepface_data.lookup name).isSome →
      (delete_face st name).1 =
        ⟨200, true, "Face " ++ name ++ " deleted successfully",
          none, none, none⟩ ∧
      (delete_face (delete_face st name).2 name).1.status = 404) := by
  have h404 : ∀ s : ServerState, s.faces_data.lookup name = none →
      s.deepface_data.lookup name = none →
      (delete_face s name).1.status = 404 := by
    intro s ha hb
    simp [delete_face, ha, hb]
  have hfd : (delete_face st name).2.faces_data =
      st.faces_data.filter (fun p => p.1 != name) := by
    cases h1 : st.faces_data.lookup name with
    | none =>
      cases h2 : st.deepface_data.lookup name with
      | none => simp [delete_face, h1, h2,
          filter_ne_of_lookup_none st.faces_data name h1]
      | some v => simp [delete_face, h1, h2,
          filter_ne_of_lookup_none st.faces_data name h1]
    | some v =>
      cases h2 : st.deepface_data.lookup name with
      | none => simp [delete_face, h1, h2]
      | some w => simp [delete_face, h1, h2]
  have hdd : (delete_face st name).2.deepface_data =
      st.deepface_data.filter (fun p => p.1 != name) := by
    cases h1 : st.faces_data.lookup name with
    | none =>
      cases h2 : st.deepface_data.lookup name with
      | none => simp [delete_face, h1, h2,
          filter_ne_of_lookup_none st.deepface_data name h2]
      | some v => simp [delete_face, h1, h2]
    | some v =>
      cases h2 : st.deepface_data.lookup name with
      | none => simp [delete_face, h1, h2,
          filter_ne_of_lookup_none st.deepface_data name h2]
      | some w => simp [delete_face, h1, h2]
  have h200 : (st.faces_data.lookup name).isSome ∨
      (st.deepface_data.lookup name).isSome →
      (delete_face st name).1 =
        ⟨200, true, "Face " ++ name ++ " deleted successfully",
          none, none, none⟩ := by
    intro h
    cases h1 : st.faces_data.lookup name with
    | none =>
      cases h2 : st.deepface_data.lookup name with
      | none =>
        rw [h1, h2] at h
        simp at h
      | some v => simp [delete_face, h1, h2]
    | some v =>
      cases h2 : st.deepface_data.lookup name with
      | none => simp [delete_face, h1, h2]
      | some w => simp [delete_face, h1, h2]
  refine ⟨hfd, hdd, ?_, ?_⟩
  · constructor
    · intro hs
      by_contra hboth
      have hor : (st.faces_data.lookup name).isSome ∨
          (st.deepface_data.lookup name).isSome := by
        cases h1 : st.faces_data.lookup name with
        | some v => exact Or.inl (by simp [h1])
        | none =>
          cases h2 : st.deepface_data.lookup name with
          | some w => exact Or.inr (by simp [h2])
          | none => exact absurd ⟨h1, h2⟩ hboth
      have := h200 hor
      rw [this] at hs
      simp at hs
    · intro ⟨ha, hb⟩
      exact h404 st ha hb
  · intro h
    refine ⟨h200 h, ?_⟩
    apply h404
    · rw [hfd]
      exact lookup_filter_self st.faces_data name
    · rw [hdd]
      exact lookup_filter_self st.deepface_data name

theorem delete_face_idempotent_witness :
    (delete_face exampleStoreBoth ("A")).1 =
      ⟨200, true, "Face " ++ "A" ++ " deleted successfully",
        none, none, none⟩ ∧
    (delete_face (delete_face exampleStoreBoth ("A")).2 ("A")).1.status = 404 :=
  (delete_face_idempotent exampleStoreBoth ("A")).2.2.2 (by decide)

/-- Claim C10: a register or recognize request whose model field is absent
or anything other than the string deepface is handled by the embedding
pipeline — it behaves exactly like a request with the model field absent,
and with valid fields it equals the embedding-pipeline operation — so no
model-validation error is ever produced for an unrecognized model value. -/
theorem model_dispatch_default (st : ServerState) (name b64 : String)
    (model : Option String) (img : Img) (dist : List ℚ → List ℚ → ℚ)
    (verify : String → Option ℚ) (saveOk : Bool) (now : String)
    (hm : model ≠ some ("deepface")) :
    register_face st (some name) (some b64) model (some img) saveOk now =
      register_face st (some name) (some b64) none (some img) saveOk now ∧
    recognize_face st (some b64) model (some img) dist verify =
      recognize_face st (some b64) none (some img) dist verify ∧
    (name ≠ "" → b64 ≠ "" →
      register_face st (some name) (some b64) model (some img) saveOk now =
        register_embedding st name img now ∧
      recognize_face st (some b64) model (some img) dist verify =
        recognize_embedding st img dist) := by
  have hm2 : selectedModel model ≠ "deepface" := by
    intro h
    apply hm
    cases model with
    | none => exact absurd h (by decide)
    | some m =>
      simp only [selectedModel, Option.getD_some] at h
      rw [h]
  have hnone : selectedModel none ≠ "deepface" := by decide
  refine ⟨?_, ?_, ?_⟩
  · simp [register_face, hm2, hnone]
  · simp [recognize_face, hm2, hnone]
  · intro hn hb
    constructor
    · simp [register_face, hn, hb, hm2]
    · simp [recognize_face, hb, hm2]

theorem model_dispatch_default_witness :
    register_face exampleStoreOne (some ("B")) (some ("img"))
      (some ("unknown")) (some exampleQuery) true "t1" =
      register_embedding exampleStoreOne ("B") exampleQuery ("t1") ∧
    recognize_face exampleStoreOne (some ("img")) (some ("unknown"))
      (some exampleQuery) exampleDist exampleVerify =
      recognize_embedding exampleStoreOne exampleQuery exampleDist :=
  (model_dispatch_default exampleStoreOne ("B") ("img") (some ("unknown"))
      exampleQuery exampleDist exampleVerify true ("t1") (by decide)).2.2
    (by decide) (by decide)

end FaceRec
